import Mathlib

/-!
Verification of the link-function module `GPy/likelihoods/link_functions.py`.

The latent values and outputs are modelled as real numbers; numpy elementwise
operations become functions `ℝ → ℝ` (arrays map elementwise, so the scalar
function is the faithful shallow embedding), and the one array-level operation
(`SigmoidalInverse.initialize`) is modelled on `List ℝ`.  Python exceptions
(`raise NotImplementedError`) become `Except` results.  Helpers imported from
modules of this repository that are not present here
(`GPy.util.univariate_Gaussian.std_norm_cdf/std_norm_pdf`, the safe arithmetic
of `GPy.util.misc`, and the `Param` gradient accumulator) are modelled from the
specification, as marked on each definition.
-/

open MeasureTheory Set

/-- Modelled from the spec: φ, the standard normal probability density function.
The module `GPy.util.univariate_Gaussian` providing `std_norm_pdf` is not part of
the sources here; the spec defines φ as the standard normal PDF. -/
noncomputable def std_norm_pdf (x : ℝ) : ℝ :=
  (Real.sqrt (2 * Real.pi))⁻¹ * Real.exp (-(1 / 2) * x ^ 2)

/-- Modelled from the spec: Φ, the standard normal cumulative distribution
function, the integral of φ over `(-∞, x]`.  The module
`GPy.util.univariate_Gaussian` providing `std_norm_cdf` is not part of the
sources here; the spec defines Φ as the standard normal CDF. -/
noncomputable def std_norm_cdf (x : ℝ) : ℝ :=
  ∫ t in Iic x, std_norm_pdf t

/-- Modelled from the spec: the clamp threshold used by the safe exponential
(`GPy.util.misc` is not part of the sources here).  The spec requires the clamp
to keep `exp` inside the representable range while preserving values for
typical latent magnitudes `|f| < ~30`; the float64 threshold is
`log(max float) ≈ 709.78`, modelled by the constant 709. -/
def expClip : ℝ := 709

/-- Modelled from the spec: `safe_exp` from `GPy.util.misc`, the exponential
with its argument clamped from above into the representable range. -/
noncomputable def safe_exp (f : ℝ) : ℝ := Real.exp (min f expClip)

/-- Modelled from the spec: the clamp threshold for `safe_square`
(square root of the largest representable float, here a stand-in constant). -/
def squareClip : ℝ := 10 ^ 150

/-- Modelled from the spec: `safe_square` from `GPy.util.misc`, the square with
its argument clamped into the range whose square is representable. -/
noncomputable def safe_square (f : ℝ) : ℝ := (max (min f squareClip) (-squareClip)) ^ 2

/-- Python exception values raised by the link-function module: a bare
`NotImplementedError` from the base-class stubs, or the one carrying the
non-differentiable message raised by `Heaviside`. -/
inductive PyError where
  | notImplementedError : PyError
  | notImplementedErrorMsg : PyError
deriving DecidableEq

/-! ## SigmoidalInverse -/

/-- `SigmoidalInverse.f`: `2./(1.+np.exp(-1./x))-1.` -/
noncomputable def SigmoidalInverse.f (x : ℝ) : ℝ :=
  2 / (1 + Real.exp (-1 / x)) - 1

/-- `SigmoidalInverse.finv`: `-1./np.log(2./(x+1.)-1)` -/
noncomputable def SigmoidalInverse.finv (x : ℝ) : ℝ :=
  -1 / Real.log (2 / (x + 1) - 1)

/-- Modelled from the spec and `np.finfo(float).eps`: the positive constant
substituted for exact zeros by `SigmoidalInverse.initialize` (float64 machine
epsilon `2⁻⁵²`). -/
noncomputable def npEps : ℝ := 1 / 2 ^ 52

/-- Result of `SigmoidalInverse.initialize`: the returned array together with
whether the diagnostic warning was printed. -/
structure InitResult where
  values : List ℝ
  warned : Bool

/-- `SigmoidalInverse.initialize`: warns when any entry equals zero, replaces
each exact-zero entry by `np.finfo(float).eps`, and returns the array.  (The
Python method is total: it prints the warning rather than raising.)  Named
`initArray` because the source name is a reserved word here. -/
noncomputable def SigmoidalInverse.initArray (l : List ℝ) : InitResult :=
  { values := l.map (fun x => if x = 0 then npEps else x)
    warned := l.any (fun x => decide (x = 0)) }

/-! ## Base class stubs -/

/-- `GPTransformation.d3transf_df3`: the base-class stub, `raise NotImplementedError`. -/
def GPTransformation.d3transf_df3 (_f : ℝ) : Except PyError ℝ :=
  Except.error PyError.notImplementedError

/-! ## Probit -/

/-- `Probit.transf`: `std_norm_cdf(f*self.nu)` -/
noncomputable def Probit.transf (nu f : ℝ) : ℝ := std_norm_cdf (f * nu)

/-- `Probit.dtransf_df`: `std_norm_pdf(f*self.nu)*self.nu` -/
noncomputable def Probit.dtransf_df (nu f : ℝ) : ℝ := std_norm_pdf (f * nu) * nu

/-- `Probit.d2transf_df2`: `-(f*self.nu) * std_norm_pdf(f*self.nu)*(self.nu**2)` -/
noncomputable def Probit.d2transf_df2 (nu f : ℝ) : ℝ :=
  -(f * nu) * std_norm_pdf (f * nu) * nu ^ 2

/-- `Probit.d3transf_df3`: `(safe_square(f*self.nu)-1.)*std_norm_pdf(f*self.nu)*(self.nu**3)` -/
noncomputable def Probit.d3transf_df3 (nu f : ℝ) : ℝ :=
  (safe_square (f * nu) - 1) * std_norm_pdf (f * nu) * nu ^ 3

/-- `Probit.dtransf_dtheta`: `std_norm_pdf(f*self.nu)*f` -/
noncomputable def Probit.dtransf_dtheta (nu f : ℝ) : ℝ := std_norm_pdf (f * nu) * f

/-- The mutable state of a `Probit` instance: the parameter `nu` and its
gradient accumulator (`self.nu.gradient`, modelled from the spec because the
`Param` framework is not part of the sources here). -/
structure ProbitState where
  nu : ℝ
  nuGradient : ℝ

/-- `Probit.update_gradients(gradient, reset)`: overwrite the accumulator when
`reset`, otherwise add to it. -/
def Probit.update_gradients (s : ProbitState) (gradient : ℝ) (reset : Bool) : ProbitState :=
  if reset then { s with nuGradient := gradient }
  else { s with nuGradient := s.nuGradient + gradient }

/-- `Probit.reset_gradients`: set the accumulator to zero (`[0]`). -/
def Probit.reset_gradients (s : ProbitState) : ProbitState :=
  { s with nuGradient := 0 }

/-! ## Probit2 -/

/-- `Probit2.transf`: `std_norm_cdf(f/self.nu)` -/
noncomputable def Probit2.transf (nu f : ℝ) : ℝ := std_norm_cdf (f / nu)

/-- `Probit2.dtransf_df`: `std_norm_pdf(f/self.nu)/self.nu` -/
noncomputable def Probit2.dtransf_df (nu f : ℝ) : ℝ := std_norm_pdf (f / nu) / nu

/-- `Probit2.d2transf_df2`: `-(f/self.nu) * std_norm_pdf(f/self.nu)/(self.nu**2)` -/
noncomputable def Probit2.d2transf_df2 (nu f : ℝ) : ℝ :=
  -(f / nu) * std_norm_pdf (f / nu) / nu ^ 2

/-- `Probit2.d3transf_df3`: `(safe_square(f/self.nu)-1.)*std_norm_pdf(f/self.nu)/(self.nu**3)` -/
noncomputable def Probit2.d3transf_df3 (nu f : ℝ) : ℝ :=
  (safe_square (f / nu) - 1) * std_norm_pdf (f / nu) / nu ^ 3

/-! ## Cloglog and Log -/

/-- `Cloglog.transf`: `ef = safe_exp(f); 1-np.exp(-ef)` -/
noncomputable def Cloglog.transf (f : ℝ) : ℝ := 1 - Real.exp (-safe_exp f)

/-- `Log.transf`: `safe_exp(f)` -/
noncomputable def Log.transf (f : ℝ) : ℝ := safe_exp f

/-- `Log.dtransf_df`: `safe_exp(f)` -/
noncomputable def Log.dtransf_df (f : ℝ) : ℝ := safe_exp f

/-! ## Heaviside -/

/-- `Heaviside.transf`: `np.where(f>0, 1, 0)` -/
noncomputable def Heaviside.transf (f : ℝ) : ℝ := if f > 0 then 1 else 0

/-- `Heaviside.dtransf_df`: raises `NotImplementedError` with the
non-differentiable message, for every input. -/
def Heaviside.dtransf_df (_f : ℝ) : Except PyError ℝ :=
  Except.error PyError.notImplementedErrorMsg

/-- `Heaviside.d2transf_df2`: raises `NotImplementedError` with the
non-differentiable message, for every input. -/
def Heaviside.d2transf_df2 (_f : ℝ) : Except PyError ℝ :=
  Except.error PyError.notImplementedErrorMsg

/-- `Heaviside.d3transf_df3` is not overridden: calls fall through to the
base-class stub `GPTransformation.d3transf_df3`. -/
def Heaviside.d3transf_df3 (f : ℝ) : Except PyError ℝ :=
  GPTransformation.d3transf_df3 f

/-! ## Theorems -/

/-- Claim C1: for every input `f`, each of Heaviside's derivative operations
(`dtransf_df`, `d2transf_df2`, `d3transf_df3`) signals an unsupported-operation
error and never returns a numeric value; `d3transf_df3` is not overridden and
falls through to the base-class stub. -/
theorem heaviside_derivatives_raise (f : ℝ) :
    Heaviside.dtransf_df f = Except.error PyError.notImplementedErrorMsg ∧
    Heaviside.d2transf_df2 f = Except.error PyError.notImplementedErrorMsg ∧
    Heaviside.d3transf_df3 f = GPTransformation.d3transf_df3 f ∧
    Heaviside.d3transf_df3 f = Except.error PyError.notImplementedError ∧
    (Heaviside.dtransf_df f).isOk = false ∧
    (Heaviside.d2transf_df2 f).isOk = false ∧
    (Heaviside.d3transf_df3 f).isOk = false :=
  ⟨rfl, rfl, rfl, rfl, rfl, rfl, rfl⟩

/-- Claim C3: for the Log link, `dtransf_df` equals `transf` exactly at every
input, and `transf` is strictly positive everywhere. -/
theorem log_dtransf_eq_transf_and_pos (f : ℝ) :
    Log.dtransf_df f = Log.transf f ∧ 0 < Log.transf f :=
  ⟨rfl, Real.exp_pos _⟩

/-- Claim C6: `Heaviside.transf f` is 1 when `f > 0` and 0 otherwise; in
particular it is 1 at 0.5, 0 at −0.5, 0 at 0, and always lies in {0, 1}. -/
theorem heaviside_transf_step (f : ℝ) :
    (f > 0 → Heaviside.transf f = 1) ∧
    (f ≤ 0 → Heaviside.transf f = 0) ∧
    (Heaviside.transf f = 0 ∨ Heaviside.transf f = 1) ∧
    Heaviside.transf (1 / 2) = 1 ∧
    Heaviside.transf (-(1 / 2)) = 0 ∧
    Heaviside.transf 0 = 0 := by
  unfold Heaviside.transf
  refine ⟨fun h => if_pos h, fun h => if_neg (not_lt.mpr h), ?_, ?_, ?_, ?_⟩
  · by_cases h : f > 0
    · exact Or.inr (if_pos h)
    · exact Or.inl (if_neg h)
  · exact if_pos (by norm_num)
  · exact if_neg (by norm_num)
  · exact if_neg (by norm_num)

/-- Witness for C6 at concrete inputs. -/
theorem heaviside_transf_step_witness :
    Heaviside.transf 2 = 1 ∧ Heaviside.transf (-3) = 0 :=
  ⟨(heaviside_transf_step 2).1 (by norm_num),
   (heaviside_transf_step (-3)).2.1 (by norm_num)⟩

/-- Claim C9: `update_gradients` with `reset = true` overwrites the gradient
accumulator, with `reset = false` adds to it, `reset_gradients` zeroes it, and
none of the three calls changes `nu` itself. -/
theorem probit_gradient_accumulator (s : ProbitState) (g : ℝ) :
    (Probit.update_gradients s g true).nuGradient = g ∧
    (Probit.update_gradients s g false).nuGradient = s.nuGradient + g ∧
    (Probit.reset_gradients s).nuGradient = 0 ∧
    (∀ r : Bool, (Probit.update_gradients s g r).nu = s.nu) ∧
    (Probit.reset_gradients s).nu = s.nu := by
  refine ⟨rfl, rfl, rfl, ?_, rfl⟩
  intro r
  cases r <;> rfl

/-! ## Properties of the standard normal density and distribution function -/

lemma std_norm_pdf_pos (x : ℝ) : 0 < std_norm_pdf x := by
  unfold std_norm_pdf
  have h2pi : (0:ℝ) < 2 * Real.pi := by positivity
  exact mul_pos (inv_pos.mpr (Real.sqrt_pos.mpr h2pi)) (Real.exp_pos _)

lemma std_norm_pdf_neg (x : ℝ) : std_norm_pdf (-x) = std_norm_pdf x := by
  simp [std_norm_pdf]

lemma integrable_std_norm_pdf : Integrable std_norm_pdf := by
  have h : Integrable (fun x : ℝ => Real.exp (-(1 / 2) * x ^ 2)) :=
    integrable_exp_neg_mul_sq (by norm_num)
  exact h.const_mul _

lemma integral_std_norm_pdf : ∫ x : ℝ, std_norm_pdf x = 1 := by
  have hg : ∫ x : ℝ, Real.exp (-(1 / 2) * x ^ 2) = Real.sqrt (Real.pi / (1 / 2)) :=
    integral_gaussian (1 / 2)
  have hmul : ∫ x : ℝ, std_norm_pdf x =
      (Real.sqrt (2 * Real.pi))⁻¹ * ∫ x : ℝ, Real.exp (-(1 / 2) * x ^ 2) := by
    unfold std_norm_pdf
    exact integral_mul_left _ _
  rw [hmul, hg]
  have hpi : Real.pi / (1 / 2) = 2 * Real.pi := by ring
  rw [hpi]
  exact inv_mul_cancel₀ (by positivity)

lemma std_norm_cdf_zero_eq : std_norm_cdf 0 = 1 / 2 := by
  have hIic : IntegrableOn std_norm_pdf (Iic 0) := integrable_std_norm_pdf.integrableOn
  have hIoi : IntegrableOn std_norm_pdf (Ioi 0) := integrable_std_norm_pdf.integrableOn
  have hadd := intervalIntegral.integral_Iic_add_Ioi hIic hIoi
  rw [integral_std_norm_pdf] at hadd
  have hsymm : (∫ x in Iic (0:ℝ), std_norm_pdf x) = ∫ x in Ioi (0:ℝ), std_norm_pdf x := by
    have h := integral_comp_neg_Iic (0:ℝ) std_norm_pdf
    simp only [std_norm_pdf_neg, neg_zero] at h
    exact h
  unfold std_norm_cdf
  linarith

lemma std_norm_cdf_lt {a b : ℝ} (hab : a < b) : std_norm_cdf a < std_norm_cdf b := by
  have ha : IntegrableOn std_norm_pdf (Iic a) := integrable_std_norm_pdf.integrableOn
  have hb : IntegrableOn std_norm_pdf (Iic b) := integrable_std_norm_pdf.integrableOn
  have hsub := intervalIntegral.integral_Iic_sub_Iic ha hb
  have hpos : 0 < ∫ x in a..b, std_norm_pdf x :=
    intervalIntegral.intervalIntegral_pos_of_pos
      integrable_std_norm_pdf.intervalIntegrable std_norm_pdf_pos hab
  unfold std_norm_cdf
  linarith

/-- Claim C4: for the Probit link, `transf 0 = 0.5` for every value of the
steepness parameter `nu`. -/
theorem probit_transf_zero (nu : ℝ) : Probit.transf nu 0 = 1 / 2 := by
  unfold Probit.transf
  rw [zero_mul]
  exact std_norm_cdf_zero_eq

/-- Claim C5: for the Probit link with `nu > 0`, `transf` is strictly
increasing in `f`, and the first derivative `dtransf_df` is strictly positive
everywhere. -/
theorem probit_transf_strict_mono (nu f1 f2 : ℝ) (hnu : 0 < nu) (h : f1 < f2) :
    Probit.transf nu f1 < Probit.transf nu f2 ∧ 0 < Probit.dtransf_df nu f1 := by
  unfold Probit.transf Probit.dtransf_df
  exact ⟨std_norm_cdf_lt (mul_lt_mul_of_pos_right h hnu),
    mul_pos (std_norm_pdf_pos _) hnu⟩

/-- Witness for C5 at `nu = 1`, `f1 = 0`, `f2 = 1`. -/
theorem probit_transf_strict_mono_witness :
    Probit.transf 1 0 < Probit.transf 1 1 ∧ 0 < Probit.dtransf_df 1 0 :=
  probit_transf_strict_mono 1 0 1 one_pos zero_lt_one

/-- Claim C2: for every nonzero `x`, `SigmoidalInverse.finv (SigmoidalInverse.f x) = x`
(the round-trip identity of the reparameterization, exact in real arithmetic). -/
theorem sigmoidalInverse_roundtrip (x : ℝ) (_hx : x ≠ 0) :
    SigmoidalInverse.finv (SigmoidalInverse.f x) = x := by
  unfold SigmoidalInverse.f SigmoidalInverse.finv
  have h1 : (0:ℝ) < 1 + Real.exp (-1 / x) := by positivity
  have he : (2:ℝ) / (2 / (1 + Real.exp (-1 / x)) - 1 + 1) - 1 = Real.exp (-1 / x) := by
    have hc : (2:ℝ) / (1 + Real.exp (-1 / x)) - 1 + 1 = 2 / (1 + Real.exp (-1 / x)) := by
      ring
    rw [hc]
    rw [div_div_eq_mul_div]
    ring
  rw [he, Real.log_exp]
  rw [div_div_eq_mul_div]
  field_simp

/-- Witness for C2 at `x = 1`. -/
theorem sigmoidalInverse_roundtrip_witness :
    SigmoidalInverse.finv (SigmoidalInverse.f 1) = 1 :=
  sigmoidalInverse_roundtrip 1 one_ne_zero

/-- Claim C7: `Log.transf` is bounded above by the fixed constant
`exp expClip` (so extreme inputs such as `f = 1000` saturate instead of
overflowing), `Cloglog.transf` always lies in `[0, 1)`, and for typical latent
magnitudes `|f| < 30` the clamping is value-preserving: both transforms equal
their unclamped closed forms exactly. -/
theorem safe_clamping_bounds (f : ℝ) :
    Log.transf f ≤ Real.exp expClip ∧
    (0 ≤ Cloglog.transf f ∧ Cloglog.transf f < 1) ∧
    (|f| < 30 → Log.transf f = Real.exp f ∧
      Cloglog.transf f = 1 - Real.exp (-Real.exp f)) := by
  refine ⟨Real.exp_le_exp.mpr (min_le_right _ _), ⟨?_, ?_⟩, fun h => ?_⟩
  · have hle : Real.exp (-safe_exp f) ≤ 1 :=
      Real.exp_le_one_iff.mpr (neg_nonpos.mpr (Real.exp_pos _).le)
    unfold Cloglog.transf
    linarith
  · have hpos : 0 < Real.exp (-safe_exp f) := Real.exp_pos _
    unfold Cloglog.transf
    linarith
  · have hf : f ≤ expClip := by
      have h2 := (abs_lt.mp h).2
      unfold expClip
      linarith
    have hmin : min f expClip = f := min_eq_left hf
    constructor
    · show Real.exp (min f expClip) = Real.exp f
      rw [hmin]
    · show 1 - Real.exp (-Real.exp (min f expClip)) = 1 - Real.exp (-Real.exp f)
      rw [hmin]

/-- Witness for C7: saturation bounds at the extreme input `f = 1000` and
exact agreement with the unclamped form at `f = 0`. -/
theorem safe_clamping_bounds_witness :
    Log.transf 1000 ≤ Real.exp expClip ∧ Cloglog.transf 1000 < 1 ∧
    Log.transf 0 = Real.exp 0 :=
  ⟨(safe_clamping_bounds 1000).1, (safe_clamping_bounds 1000).2.1.2,
    ((safe_clamping_bounds 0).2.2 (by norm_num)).1⟩

/-- Claim C8: `SigmoidalInverse.initialize` applied to an array containing an
exact zero emits the warning, replaces every exact-zero entry with the positive
constant `np.finfo(float).eps`, leaves every nonzero entry unchanged at its
position, and the returned array contains no exact zeros (the method is a
total function: it never raises). -/
theorem sigmoidalInverse_init_replaces_zeros (l : List ℝ) (h0 : (0:ℝ) ∈ l) :
    (SigmoidalInverse.initArray l).warned = true ∧
    0 < npEps ∧
    (SigmoidalInverse.initArray l).values =
      l.map (fun x => if x = 0 then npEps else x) ∧
    (∀ i : ℕ, ∀ x : ℝ, l[i]? = some x → x ≠ 0 →
      (SigmoidalInverse.initArray l).values[i]? = some x) ∧
    (∀ y ∈ (SigmoidalInverse.initArray l).values, y ≠ 0) := by
  have hEps : (0:ℝ) < npEps := by
    unfold npEps
    positivity
  refine ⟨?_, hEps, rfl, ?_, ?_⟩
  · unfold SigmoidalInverse.initArray
    simp only [List.any_eq_true, decide_eq_true_eq]
    exact ⟨0, h0, rfl⟩
  · intro i x hi hx
    unfold SigmoidalInverse.initArray
    simp [List.getElem?_map, hi, hx]
  · intro y hy
    unfold SigmoidalInverse.initArray at hy
    simp only [List.mem_map] at hy
    obtain ⟨x, _, hxy⟩ := hy
    by_cases hx : x = 0
    · rw [if_pos hx] at hxy
      rw [← hxy]
      exact ne_of_gt hEps
    · rw [if_neg hx] at hxy
      rw [← hxy]
      exact hx

/-- Witness for C8 on the concrete array `[0, 1]`. -/
theorem sigmoidalInverse_init_replaces_zeros_witness :
    (SigmoidalInverse.initArray [0, 1]).warned = true ∧
    ∀ y ∈ (SigmoidalInverse.initArray [0, 1]).values, y ≠ 0 :=
  ⟨(sigmoidalInverse_init_replaces_zeros [0, 1] (by simp)).1,
    (sigmoidalInverse_init_replaces_zeros [0, 1] (by simp)).2.2.2.2⟩

/-- Claim C10: for every `nu > 0` and every `f`, the Probit2 link with
parameter `nu` computes the same `transf`, `dtransf_df`, `d2transf_df2` and
`d3transf_df3` values as the Probit link with parameter `1/nu`: the two
variants are reparameterizations of each other. -/
theorem probit2_refines_probit (nu f : ℝ) (_hnu : 0 < nu) :
    Probit2.transf nu f = Probit.transf (1 / nu) f ∧
    Probit2.dtransf_df nu f = Probit.dtransf_df (1 / nu) f ∧
    Probit2.d2transf_df2 nu f = Probit.d2transf_df2 (1 / nu) f ∧
    Probit2.d3transf_df3 nu f = Probit.d3transf_df3 (1 / nu) f := by
  unfold Probit2.transf Probit.transf Probit2.dtransf_df Probit.dtransf_df
    Probit2.d2transf_df2 Probit.d2transf_df2 Probit2.d3transf_df3 Probit.d3transf_df3
  refine ⟨?_, ?_, ?_, ?_⟩ <;> simp only [mul_one_div] <;> ring

/-- Witness for C10 at `nu = 2`, `f = 3`. -/
theorem probit2_refines_probit_witness :
    Probit2.transf 2 3 = Probit.transf (1 / 2) 3 :=
  (probit2_refines_probit 2 3 two_pos).1
